import Mathlib

/-!
Verification development for the `vitalium-verb` DSP core
(`src/vitalium_verb_dsp`): a shallow embedding of the reverb engine into
Lean, with `f32` modeled as `ℚ` (exact arithmetic), `i32` as `ℤ` and
`usize` as `ℕ`.  Transcendental functions (`sin`, `cos`, `tan`, `powf`)
and the constant `π` have no exact rational counterpart; the embedding
abstracts them as an explicit `MathOracle` record of functions that is
passed through the code unchanged, exactly where the Rust code calls into
`libm`.  None of the verified claims depend on the value of these
functions.  The i32 arithmetic performed by the engine never overflows at
the sizes involved, so `ℤ` is used without a wrap.
-/

set_option allowUnsafeReducibility true in
attribute [semireducible] Rat.add Rat.mul Rat.sub Rat.inv Rat.div Rat.ofScientific Rat.neg

namespace VitaliumVerb

/-- Scalar clamp, the semantics of `f32::clamp` on ordered values. -/
def clampQ (x lo hi : ℚ) : ℚ := min (max x lo) hi

/-- Model of `std::simd::f32x4`: four rational lanes. -/
structure V4 where
  a : ℚ
  b : ℚ
  c : ℚ
  d : ℚ
deriving DecidableEq, Repr

namespace V4

/-- Model of `f32x4::splat`. -/
def splat (x : ℚ) : V4 := ⟨x, x, x, x⟩

instance : Add V4 := ⟨fun x y => ⟨x.a + y.a, x.b + y.b, x.c + y.c, x.d + y.d⟩⟩

instance : Sub V4 := ⟨fun x y => ⟨x.a - y.a, x.b - y.b, x.c - y.c, x.d - y.d⟩⟩

instance : Mul V4 := ⟨fun x y => ⟨x.a * y.a, x.b * y.b, x.c * y.c, x.d * y.d⟩⟩

instance : Div V4 := ⟨fun x y => ⟨x.a / y.a, x.b / y.b, x.c / y.c, x.d / y.d⟩⟩

instance : Neg V4 := ⟨fun x => ⟨-x.a, -x.b, -x.c, -x.d⟩⟩

/-- Lane accessor (`v[i]`). -/
def get (v : V4) : Fin 4 → ℚ
  | 0 => v.a
  | 1 => v.b
  | 2 => v.c
  | 3 => v.d

/-- Model of `SimdFloat::reduce_sum`. -/
def reduceSum (v : V4) : ℚ := v.a + v.b + v.c + v.d

/-- Model of `SimdFloat::simd_min` (lane-wise minimum). -/
def simdMin (x y : V4) : V4 :=
  ⟨min x.a y.a, min x.b y.b, min x.c y.c, min x.d y.d⟩

/-- Model of `SimdFloat::simd_clamp` (lane-wise clamp). -/
def simdClamp (v lo hi : V4) : V4 :=
  ⟨clampQ v.a lo.a hi.a, clampQ v.b lo.b hi.b, clampQ v.c lo.c hi.c, clampQ v.d lo.d hi.d⟩

/-- Lane-wise application of a scalar function (models the
`for e in v.as_mut_array()` loops in the Rust code). -/
def mapLanes (f : ℚ → ℚ) (v : V4) : V4 := ⟨f v.a, f v.b, f v.c, f v.d⟩

end V4

/-- Model of `std::simd::i32x4`: four integer lanes. -/
structure IV4 where
  a : ℤ
  b : ℤ
  c : ℤ
  d : ℤ
deriving DecidableEq, Repr

namespace IV4

/-- Model of `i32x4::splat`. -/
def splat (x : ℤ) : IV4 := ⟨x, x, x, x⟩

instance : Add IV4 := ⟨fun x y => ⟨x.a + y.a, x.b + y.b, x.c + y.c, x.d + y.d⟩⟩

instance : Sub IV4 := ⟨fun x y => ⟨x.a - y.a, x.b - y.b, x.c - y.c, x.d - y.d⟩⟩

instance : Mul IV4 := ⟨fun x y => ⟨x.a * y.a, x.b * y.b, x.c * y.c, x.d * y.d⟩⟩

/-- Lane-wise bitwise and, as in `i32x4 & i32x4` (two's complement,
faithful for the in-range values the engine produces). -/
def land (x y : IV4) : IV4 :=
  ⟨Int.land x.a y.a, Int.land x.b y.b, Int.land x.c y.c, Int.land x.d y.d⟩

/-- Model of `i32x4::cast::<f32>` (lane-wise conversion to float). -/
def toV4 (x : IV4) : V4 := ⟨(x.a : ℚ), (x.b : ℚ), (x.c : ℚ), (x.d : ℚ)⟩

end IV4

/-- Truncation of a rational toward zero, the semantics of
`f32::to_int_unchecked::<i32>` on in-range inputs. -/
def ratTrunc (q : ℚ) : ℤ := if 0 ≤ q then ⌊q⌋ else -⌊-q⌋

/-- Model of `f32x4::to_int_unchecked` (lane-wise truncation). -/
def v4ToInt (v : V4) : IV4 := ⟨ratTrunc v.a, ratTrunc v.b, ratTrunc v.c, ratTrunc v.d⟩

/-- A fixed-size container of four items, modelling the
`[T; NETWORK_CONTAINERS]` arrays (`NETWORK_CONTAINERS = 4`). -/
structure Four (α : Type) where
  c0 : α
  c1 : α
  c2 : α
  c3 : α
deriving Repr, DecidableEq

namespace Four

/-- Index accessor. -/
def get {α : Type} (f : Four α) : Fin 4 → α
  | 0 => f.c0
  | 1 => f.c1
  | 2 => f.c2
  | 3 => f.c3

/-- Apply a function to each of the four items (models `iter_mut` loops
over container arrays). -/
def map {α β : Type} (g : α → β) (f : Four α) : Four β :=
  ⟨g f.c0, g f.c1, g f.c2, g f.c3⟩

/-- Combine two containers item-wise (models `zip` loops). -/
def zipWith {α β γ : Type} (g : α → β → γ) (f : Four α) (f' : Four β) : Four γ :=
  ⟨g f.c0 f'.c0, g f.c1 f'.c1, g f.c2 f'.c2, g f.c3 f'.c3⟩

end Four

-- --------------------------------------------------------------------------
-- src/poly_utils.rs

/-- `poly_utils::mul_add_f32`: `a + (b * c)`. -/
def mulAddF32 (a b c : V4) : V4 := a + (b * c)

/-- `poly_utils::mul_sub_f32`: `a - (b * c)`. -/
def mulSubF32 (a b c : V4) : V4 := a - (b * c)

/-- `poly_utils::interpolate_f32`: `mul_add_f32(from, to - from, t)`. -/
def interpolateF32 (from' to' t : V4) : V4 := mulAddF32 from' (to' - from') t

/-- `poly_utils::swap_voices_x4`: swizzle `[2, 3, 0, 1]`. -/
def swapVoicesX4 (v : V4) : V4 := ⟨v.c, v.d, v.a, v.b⟩

/-- `poly_utils::swap_stereo_x4` on `i32x4`: swizzle `[1, 0, 3, 2]`. -/
def swapStereoI4 (v : IV4) : IV4 := ⟨v.b, v.a, v.d, v.c⟩

/-- `poly_utils::simd_trunc_f32_unchecked`: truncate toward zero via an
`i32` round-trip. -/
def simdTruncF32 (v : V4) : V4 := (v4ToInt v).toV4

/-- `poly_utils::simd_floor_f32x4_unchecked`: truncate, then subtract one
in the lanes where the truncation rounded up. -/
def simdFloorF32x4 (v : V4) : V4 :=
  let truncated := simdTruncF32 v
  truncated + ⟨if truncated.a > v.a then -1 else 0,
               if truncated.b > v.b then -1 else 0,
               if truncated.c > v.c then -1 else 0,
               if truncated.d > v.d then -1 else 0⟩

-- --------------------------------------------------------------------------
-- Math oracle for transcendental functions

/-- The transcendental functions used by the engine (`libm` calls) and the
constant `π`, abstracted as an explicit record.  `pow2`, `pow10` and
`powT60` stand for `2.0f32.powf`, `10.0f32.powf` and `0.001f32.powf`. -/
structure MathOracle where
  cos : ℚ → ℚ
  sin : ℚ → ℚ
  tan : ℚ → ℚ
  pow2 : ℚ → ℚ
  pow10 : ℚ → ℚ
  powT60 : ℚ → ℚ
  pi : ℚ

/-- A concrete oracle (every function constantly zero, `π ↦ 0`), used only
to instantiate witnesses; no verified claim depends on oracle values. -/
def zeroOracle : MathOracle :=
  ⟨fun _ => 0, fun _ => 0, fun _ => 0, fun _ => 0, fun _ => 0, fun _ => 0, 0⟩

-- --------------------------------------------------------------------------
-- src/utils.rs

/-- `utils::db_to_amplitude`: `10.0f32.powf(dbs * 0.05)`. -/
def dbToAmplitude (o : MathOracle) (dbs : ℚ) : ℚ := o.pow10 (dbs * 0.05)

/-- `utils::equal_power_fade`: `(normal * FRAC_PI_2).cos()`. -/
def equalPowerFade (o : MathOracle) (normal : ℚ) : ℚ := o.cos (normal * (o.pi / 2))

/-- `utils::equal_power_fade_inverse`: `((normal - 1.0) * FRAC_PI_2).cos()`. -/
def equalPowerFadeInverse (o : MathOracle) (normal : ℚ) : ℚ :=
  o.cos ((normal - 1) * (o.pi / 2))

-- --------------------------------------------------------------------------
-- src/one_pole_filter.rs

/-- State of `OnePoleFilter`. -/
structure OnePoleFilter where
  current_state : V4
  filter_state : V4
deriving DecidableEq, Repr

namespace OnePoleFilter

/-- `OnePoleFilter::new`. -/
def new : OnePoleFilter := ⟨V4.splat 0, V4.splat 0⟩

/-- `OnePoleFilter::reset`. -/
def reset (_f : OnePoleFilter) : OnePoleFilter := ⟨V4.splat 0, V4.splat 0⟩

/-- `OnePoleFilter::tick`; returns the output together with the updated
filter state (the Rust method mutates `self`). -/
def tick (f : OnePoleFilter) (audio_in coefficient : V4) : V4 × OnePoleFilter :=
  let delta := coefficient * (audio_in - f.filter_state)
  let filter_state1 := f.filter_state + delta
  let current_state1 := filter_state1
  let filter_state2 := filter_state1 + delta
  (current_state1, ⟨current_state1, filter_state2⟩)

/-- `OnePoleFilter::compute_coeff`. -/
def compute_coeff (o : MathOracle) (cutoff_frequency sample_rate_recip : V4) : V4 :=
  let delta_phase := cutoff_frequency * (V4.splat o.pi * sample_rate_recip)
  let a := delta_phase / (delta_phase + V4.splat 1)
  a.mapLanes o.tan

end OnePoleFilter

-- --------------------------------------------------------------------------
-- src/matrix.rs

/-- `matrix::Matrix`: a 4×4 block of four `f32x4` rows. -/
structure Mat4 where
  r0 : V4
  r1 : V4
  r2 : V4
  r3 : V4
deriving DecidableEq, Repr

namespace Mat4

/-- `Matrix::polynomial_interpolation_matrix`. -/
def polynomialInterpolationMatrix (t_from : V4) : Mat4 :=
  let t_prev := t_from + V4.splat 1
  let t_to := t_from - V4.splat 1
  let t_next := t_from - V4.splat 2
  let t_prev_from := t_prev * t_from
  let t_to_next := t_to * t_next
  ⟨t_from * t_to_next * V4.splat (-1/6),
   t_prev * t_to_next * V4.splat (1/2),
   t_prev_from * t_next * V4.splat (-1/2),
   t_prev_from * t_to * V4.splat (1/6)⟩

/-- `Matrix::catmull_interpolation_matrix`. -/
def catmullInterpolationMatrix (t : V4) : Mat4 :=
  let half_t := t * V4.splat 0.5
  let half_t2 := t * half_t
  let half_t3 := half_t2 * t
  let half_three_t3 := half_t3 * V4.splat 3
  ⟨half_t2 * V4.splat 2 - half_t3 - half_t,
   mulSubF32 half_three_t3 half_t2 (V4.splat 5) + V4.splat 1,
   mulAddF32 half_t half_t2 (V4.splat 4) - half_three_t3,
   half_t3 - half_t2⟩

/-- `Matrix::transpose`, written with the same swizzle structure as the
Rust code (the Rust method mutates in place; here the transposed matrix is
returned). -/
def transpose (m : Mat4) : Mat4 :=
  let low0 : V4 := ⟨m.r0.a, m.r1.a, m.r0.b, m.r1.b⟩
  let low1 : V4 := ⟨m.r2.a, m.r3.a, m.r2.b, m.r3.b⟩
  let high0 : V4 := ⟨m.r0.c, m.r1.c, m.r0.d, m.r1.d⟩
  let high1 : V4 := ⟨m.r2.c, m.r3.c, m.r2.d, m.r3.d⟩
  ⟨⟨low0.a, low0.b, low1.a, low1.b⟩,
   ⟨low0.c, low0.d, low1.c, low1.d⟩,
   ⟨high0.a, high0.b, high1.a, high1.b⟩,
   ⟨high0.c, high0.d, high1.c, high1.d⟩⟩

/-- `Matrix::multiply_and_sum_rows`. -/
def multiplyAndSumRows (m other : Mat4) : V4 :=
  let row01 := mulAddF32 (m.r0 * other.r0) m.r1 other.r1
  let row012 := mulAddF32 row01 m.r2 other.r2
  mulAddF32 row012 m.r3 other.r3

/-- `Matrix::sum_rows`. -/
def sumRows (m : Mat4) : V4 := m.r0 + m.r1 + m.r2 + m.r3

end Mat4

-- --------------------------------------------------------------------------
-- List helpers shared by the memory models

/-- Read four consecutive values starting at index `i`
(`std::slice::from_raw_parts(ptr.add(i), 4)` followed by
`f32x4::from_slice`). -/
def readSlice4 (mem : List ℚ) (i : ℕ) : V4 :=
  ⟨mem.getD i 0, mem.getD (i + 1) 0, mem.getD (i + 2) 0, mem.getD (i + 3) 0⟩

/-- Write four consecutive values starting at index `i`
(`f32x4::copy_to_slice` into a 4-element slice). -/
def writeSlice4 (mem : List ℚ) (i : ℕ) (v : V4) : List ℚ :=
  (((mem.set i v.a).set (i + 1) v.b).set (i + 2) v.c).set (i + 3) v.d

-- --------------------------------------------------------------------------
-- src/stereo_memory.rs

/-- State of `StereoMemory`. -/
structure StereoMemory where
  left : List ℚ
  right : List ℚ
  size : ℤ
  bitmask : ℤ
  bitmask_v : IV4
  offset : ℤ
deriving DecidableEq, Repr

namespace StereoMemory

/-- `StereoMemory::new`. -/
def new (size : ℕ) : StereoMemory :=
  let size2 : ℤ := (Nat.nextPowerOfTwo size : ℤ)
  let bitmask := size2 - 1
  { left := List.replicate (2 * size2).toNat 0
    right := List.replicate (2 * size2).toNat 0
    size := size2
    bitmask := bitmask
    bitmask_v := IV4.splat bitmask
    offset := 0 }

/-- `StereoMemory::push`: advance the write offset and mirror the first
two lanes of `sample` into the doubled left/right rings. -/
def push (m : StereoMemory) (sample : V4) : StereoMemory :=
  let offset := Int.land (m.offset + 1) m.bitmask
  let left := (m.left.set offset.toNat sample.a).set (offset + m.size).toNat sample.a
  let right := (m.right.set offset.toNat sample.b).set (offset + m.size).toNat sample.b
  { m with left := left, right := right, offset := offset }

/-- `StereoMemory::clear`: zero both rings, keeping their lengths and the
offset/size/bitmask fields. -/
def clear (m : StereoMemory) : StereoMemory :=
  { m with left := m.left.map (fun _ => 0), right := m.right.map (fun _ => 0) }

/-- `StereoMemory::get_interpolated`. -/
def getInterpolated (m : StereoMemory) (past : V4) : V4 :=
  let past_index : IV4 := v4ToInt past
  let past_truncated : V4 := past_index.toV4
  let t := past_truncated - past + V4.splat 1
  let interpolation_matrix := Mat4.catmullInterpolationMatrix t
  let indices := (IV4.splat m.offset - past_index - IV4.splat 2).land m.bitmask_v
  let value_matrix := Mat4.transpose
    ⟨readSlice4 m.left indices.a.toNat, readSlice4 m.right indices.b.toNat,
     V4.splat 0, V4.splat 0⟩
  interpolation_matrix.multiplyAndSumRows value_matrix

end StereoMemory

-- --------------------------------------------------------------------------
-- src/params.rs

/-- `ReverbParams`: the value-typed parameter snapshot. -/
structure ReverbParams where
  mix : ℚ
  size : ℚ
  decay : ℚ
  delay : ℚ
  width : ℚ
  chorus_freq_hz : ℚ
  chorus_amount : ℚ
  pre_low_cut_hz : ℚ
  pre_high_cut_hz : ℚ
  low_shelf_cut_hz : ℚ
  low_shelf_gain_db : ℚ
  high_shelf_cut_hz : ℚ
  high_shelf_gain_db : ℚ
deriving DecidableEq, Repr

namespace ReverbParams

/-- `ReverbParams::default`. -/
def default : ReverbParams :=
  { mix := 0.25
    size := 0.5
    decay := 1.0
    delay := 0.004
    width := -0.05
    chorus_freq_hz := 0.25
    chorus_amount := 0.046
    pre_low_cut_hz := 20.0
    pre_high_cut_hz := 4700.0
    low_shelf_cut_hz := 20.0
    low_shelf_gain_db := 0.0
    high_shelf_cut_hz := 1480.0
    high_shelf_gain_db := -1.0 }

end ReverbParams

-- --------------------------------------------------------------------------
-- src/reverb.rs: constants

/-- `ALLPASS_DELAYS`. -/
def ALLPASS_DELAYS : Four IV4 :=
  ⟨⟨1001, 799, 933, 876⟩,
   ⟨895, 807, 907, 853⟩,
   ⟨957, 1019, 711, 567⟩,
   ⟨833, 779, 663, 997⟩⟩

/-- `FEEDBACK_DELAYS` (exact decimal values of the source literals). -/
def FEEDBACK_DELAYS : Four V4 :=
  ⟨⟨6753.2, 9278.4, 7704.5, 11328.5⟩,
   ⟨9701.12, 5512.5, 8480.45, 5638.65⟩,
   ⟨3120.73, 3429.5, 3626.37, 7713.52⟩,
   ⟨4521.54, 6518.97, 5265.56, 5630.25⟩⟩

-- --------------------------------------------------------------------------
-- src/reverb.rs: the Reverb state

/-- State of `Reverb` (all fields of the Rust struct). -/
structure Reverb where
  stereo_memory : StereoMemory
  allpass_memories : Four (List ℚ)
  feedback_memories : Four (Four (List ℚ))
  decays : Four V4
  pre_low_filter : OnePoleFilter
  pre_high_filter : OnePoleFilter
  low_shelf_filters : Four OnePoleFilter
  high_shelf_filters : Four OnePoleFilter
  pre_low_coeff : V4
  pre_high_coeff : V4
  low_shelf_coeff : V4
  high_shelf_coeff : V4
  low_shelf_amp : V4
  high_shelf_amp : V4
  chorus_phase : ℚ
  chorus_amount : V4
  sample_delay : V4
  sample_delay_increment : V4
  dry_amp : V4
  wet_amp : V4
  width_coeff : ℚ
  write_index : ℤ
  max_feedback_size : ℕ
  feedback_mask : ℤ
  feedback_mask_v : IV4
  allpass_mask : ℤ
  allpass_mask_v : IV4
  delay_offset_v : IV4
  allpass_offsets : Four IV4
  delays : Four V4
  prev_pre_low_cut_hz : ℚ
  prev_pre_high_cut_hz : ℚ
  prev_low_shelf_cut_hz : ℚ
  prev_high_shelf_cut_hz : ℚ
  prev_size_val : ℚ
  prev_decay_val : ℚ
  prev_chorus_freq_hz : ℚ
  prev_mix_val : ℚ
  prev_low_shelf_gain_db : ℚ
  prev_high_shelf_gain_db : ℚ
  size_mult_v : V4
  chorus_increment_real_v : V4
  chorus_increment_imaginary_v : V4
  sample_rate : ℚ
  sample_rate_recip : ℚ
  sample_rate_recip_v : V4
  sample_rate_ratio : ℚ
  sample_rate_ratio_v : V4
  buffer_scale : ℤ
  did_init : Bool

namespace Reverb

/-- `Reverb::default`. -/
def default : Reverb :=
  { stereo_memory := StereoMemory.new 192000
    allpass_memories := ⟨[], [], [], []⟩
    feedback_memories := ⟨⟨[], [], [], []⟩, ⟨[], [], [], []⟩, ⟨[], [], [], []⟩, ⟨[], [], [], []⟩⟩
    decays := ⟨V4.splat 0, V4.splat 0, V4.splat 0, V4.splat 0⟩
    pre_low_filter := OnePoleFilter.new
    pre_high_filter := OnePoleFilter.new
    low_shelf_filters := ⟨OnePoleFilter.new, OnePoleFilter.new, OnePoleFilter.new, OnePoleFilter.new⟩
    high_shelf_filters := ⟨OnePoleFilter.new, OnePoleFilter.new, OnePoleFilter.new, OnePoleFilter.new⟩
    pre_low_coeff := V4.splat 0.1
    pre_high_coeff := V4.splat 0.1
    low_shelf_coeff := V4.splat 0.1
    high_shelf_coeff := V4.splat 0.1
    low_shelf_amp := V4.splat 0
    high_shelf_amp := V4.splat 0
    chorus_phase := 0
    chorus_amount := V4.splat 0
    sample_delay := V4.splat 3
    sample_delay_increment := V4.splat 0
    dry_amp := V4.splat 0
    wet_amp := V4.splat 0
    width_coeff := 0.5
    write_index := 0
    max_feedback_size := 0
    feedback_mask := 0
    feedback_mask_v := IV4.splat 0
    allpass_mask := 0
    allpass_mask_v := IV4.splat 0
    delay_offset_v := IV4.splat 0
    allpass_offsets := ⟨IV4.splat 0, IV4.splat 0, IV4.splat 0, IV4.splat 0⟩
    delays := ⟨V4.splat 0, V4.splat 0, V4.splat 0, V4.splat 0⟩
    prev_pre_low_cut_hz := 0
    prev_pre_high_cut_hz := 0
    prev_low_shelf_cut_hz := 0
    prev_high_shelf_cut_hz := 0
    prev_size_val := -1
    prev_decay_val := -1
    prev_chorus_freq_hz := -1
    prev_mix_val := -1
    prev_low_shelf_gain_db := -1000
    prev_high_shelf_gain_db := -1000
    size_mult_v := V4.splat 0
    chorus_increment_real_v := V4.splat 0
    chorus_increment_imaginary_v := V4.splat 0
    sample_rate := 0
    sample_rate_recip := 0
    sample_rate_recip_v := V4.splat 0
    sample_rate_ratio := 0
    sample_rate_ratio_v := V4.splat 0
    buffer_scale := 0
    did_init := false }

end Reverb

-- --------------------------------------------------------------------------
-- src/reverb.rs: init helpers

/-- `get_sample_rate_ratio`: `sample_rate / BASE_SAMPLE_RATE`. -/
def getSampleRateRatio (sample_rate : ℚ) : ℚ := sample_rate / 44100

/-- The `while (scale as f32) < ratio { scale *= 2 }` loop of
`get_buffer_scale`.  The `0 < scale` conjunct is a termination guard; the
source always enters the loop at `scale = 1`, where it holds
invariantly. -/
def bufferScaleLoop (scale : ℕ) (ratio : ℚ) : ℕ :=
  if h : 0 < scale ∧ (scale : ℚ) < ratio then bufferScaleLoop (2 * scale) ratio else scale
termination_by (⌈ratio⌉.toNat + 1) - scale
decreasing_by
  have h1 : (scale : ℤ) ≤ ⌈ratio⌉ := by
    have := Int.le_ceil ratio
    have : (scale : ℚ) < (⌈ratio⌉ : ℚ) := lt_of_lt_of_le h.2 this
    exact_mod_cast this.le
  have h2 : scale ≤ ⌈ratio⌉.toNat := by omega
  exact Nat.sub_lt_sub_left (by omega) (by omega)

/-- `get_buffer_scale`. -/
def getBufferScale (sample_rate : ℚ) : ℤ :=
  (bufferScaleLoop 1 (getSampleRateRatio sample_rate) : ℤ)

namespace Reverb

/-- `Reverb::init`: the source first does `*self = Self::default()`, so
initialization is a pure function of the sample rate. -/
def init (sample_rate : ℚ) : Reverb :=
  let rv := Reverb.default
  let sample_rate_recip := sample_rate⁻¹
  let sample_rate_ratio := getSampleRateRatio sample_rate
  let buffer_scale := getBufferScale sample_rate
  -- BASE_FEEDBACK_BITS = 14, MAX_SIZE_POWER = 1: 1 << 15
  let max_feedback_size : ℕ := (buffer_scale * 2 ^ 15).toNat
  let feedback_mask : ℤ := (max_feedback_size : ℤ) - 1
  let delay_offset_v : IV4 :=
    let d : IV4 := ⟨0, -1, -2, -3⟩
    if buffer_scale ≠ 0 then d + IV4.splat 4 else d
  -- EXTRA_LOOKUP_SAMPLE = 1, f32x4::LEN = 4
  let feedback_buffer : List ℚ := List.replicate (max_feedback_size + 1 * 4) 0
  -- BASE_ALLPASS_BITS = 10: buffer_scale * (1 << 10) * 4
  let max_allpass_size : ℤ := buffer_scale * 2 ^ 10 * 4
  let allpass_mask : ℤ := max_allpass_size - 1
  let allpass_offsets : Four IV4 :=
    (ALLPASS_DELAYS.map fun delays =>
      swapStereoI4 (delays * IV4.splat buffer_scale * IV4.splat 4 + delay_offset_v))
  { rv with
    sample_rate := sample_rate
    sample_rate_recip := sample_rate_recip
    sample_rate_recip_v := V4.splat sample_rate_recip
    sample_rate_ratio := sample_rate_ratio
    sample_rate_ratio_v := V4.splat sample_rate_ratio
    buffer_scale := buffer_scale
    max_feedback_size := max_feedback_size
    feedback_mask := feedback_mask
    feedback_mask_v := IV4.splat feedback_mask
    delay_offset_v := delay_offset_v
    feedback_memories :=
      ⟨⟨feedback_buffer, feedback_buffer, feedback_buffer, feedback_buffer⟩,
       ⟨feedback_buffer, feedback_buffer, feedback_buffer, feedback_buffer⟩,
       ⟨feedback_buffer, feedback_buffer, feedback_buffer, feedback_buffer⟩,
       ⟨feedback_buffer, feedback_buffer, feedback_buffer, feedback_buffer⟩⟩
    allpass_mask := allpass_mask
    allpass_mask_v := IV4.splat allpass_mask
    allpass_offsets := allpass_offsets
    allpass_memories :=
      ⟨List.replicate max_allpass_size.toNat 0, List.replicate max_allpass_size.toNat 0,
       List.replicate max_allpass_size.toNat 0, List.replicate max_allpass_size.toNat 0⟩
    write_index := Int.land rv.write_index feedback_mask
    did_init := true }

/-- `Reverb::reset`. -/
def reset (rv : Reverb) : Reverb :=
  { rv with
    pre_low_filter := rv.pre_low_filter.reset
    pre_high_filter := rv.pre_high_filter.reset
    low_shelf_filters := rv.low_shelf_filters.map OnePoleFilter.reset
    high_shelf_filters := rv.high_shelf_filters.map OnePoleFilter.reset
    feedback_memories := rv.feedback_memories.map (Four.map (List.map (fun _ => 0)))
    allpass_memories := rv.allpass_memories.map (List.map (fun _ => 0))
    stereo_memory := rv.stereo_memory.clear }

end Reverb

-- --------------------------------------------------------------------------
-- src/reverb.rs: per-block guard copy

/-- The guard copy performed on each feedback buffer at block entry
(`process_block`, "Wrap feedback memory buffers", performed in source
statement order). -/
def wrapBuffer (max_feedback_size : ℕ) (buffer : List ℚ) : List ℚ :=
  let b1 := buffer.set 0 (buffer.getD max_feedback_size 0)
  let b2 := b1.set (max_feedback_size + 1) (b1.getD 1 0)
  let b3 := b2.set (max_feedback_size + 2) (b2.getD 2 0)
  b3.set (max_feedback_size + 3) (b3.getD 3 0)

/-- The guard-copy step applied to all sixteen feedback buffers; the
first action of `process_block`. -/
def wrapGuards (rv : Reverb) : Reverb :=
  { rv with
    feedback_memories := rv.feedback_memories.map (Four.map (wrapBuffer rv.max_feedback_size)) }

-- --------------------------------------------------------------------------
-- src/reverb.rs: memory reads

/-- `Reverb::read_feedback_interpolated` (the `self` inputs are passed
explicitly). -/
def readFeedbackInterpolated (write_index : ℤ) (feedback_mask_v : IV4)
    (memories : Four (List ℚ)) (offset : V4) : V4 :=
  let write_offset := V4.splat (write_index : ℚ) - offset
  let floored_offset := simdFloorF32x4 write_offset
  let floored_offset_i32 := v4ToInt floored_offset
  let t := write_offset - floored_offset
  let interpolation_matrix := Mat4.polynomialInterpolationMatrix t
  let indices := floored_offset_i32.land feedback_mask_v
  -- EXTRA_LOOKUP_SAMPLE = 1
  let value_matrix := Mat4.transpose
    ⟨readSlice4 memories.c0 (indices.a + 1).toNat,
     readSlice4 memories.c1 (indices.b + 1).toNat,
     readSlice4 memories.c2 (indices.c + 1).toNat,
     readSlice4 memories.c3 (indices.d + 1).toNat⟩
  interpolation_matrix.multiplyAndSumRows value_matrix

/-- `Reverb::read_allpass`. -/
def readAllpass (write_index : ℤ) (allpass_mask_v : IV4)
    (memories : List ℚ) (offset : IV4) : V4 :=
  let indices := (IV4.splat (write_index * 4) - offset).land allpass_mask_v
  ⟨memories.getD indices.a.toNat 0, memories.getD indices.b.toNat 0,
   memories.getD indices.c.toNat 0, memories.getD indices.d.toNat 0⟩

-- --------------------------------------------------------------------------
-- src/reverb.rs: the cross-coupling step (used for allpass stages A and B)

/-- The `other_feedback` value of the cross-coupling step:
`mul_add_f32(splat(total_rows.reduce_sum() * 0.25), total_rows,
V_NEG_ONE_HALF)` where `total_rows = m.sum_rows()`. -/
def otherFeedbackOf (m : Mat4) : V4 :=
  let total_rows := m.sumRows
  mulAddF32 (V4.splat (total_rows.reduceSum * 0.25)) total_rows (V4.splat (-0.5))

/-- The cross-coupling applied to the stage-A allpass outputs (building
`writes`) and again to `stores` in stage B (building
`feed_forward_vals`); the source repeats this code textually at both
places (`stage A` writes the transposed-row sum out elementwise, stage B
uses `sum_rows()` of the transposed matrix; the two are identical). -/
def crossCouple (m : Mat4) : Mat4 :=
  let other_feedback := otherFeedbackOf m
  let coupled : Mat4 :=
    ⟨other_feedback + m.r0, other_feedback + m.r1, other_feedback + m.r2, other_feedback + m.r3⟩
  let mt := m.transpose
  let adjacent_feedback := (mt.r0 + mt.r1 + mt.r2 + mt.r3) * V4.splat (-0.5)
  ⟨coupled.r0 + V4.splat adjacent_feedback.a,
   coupled.r1 + V4.splat adjacent_feedback.b,
   coupled.r2 + V4.splat adjacent_feedback.c,
   coupled.r3 + V4.splat adjacent_feedback.d⟩

-- --------------------------------------------------------------------------
-- src/reverb.rs: the per-sample loop

/-- The per-block constants of `process_block` that the per-sample loop
reads but never writes. -/
structure BlockConsts where
  delta_chorus_amount : V4
  chorus_increment_real_v : V4
  chorus_increment_imaginary_v : V4
  delays : Four V4
  delta_decays : Four V4
  delta_pre_low_coeff : V4
  delta_pre_high_coeff : V4
  delta_low_shelf_coeff : V4
  delta_high_shelf_coeff : V4
  delta_dry_amp : V4
  delta_wet_amp : V4
  delta_low_shelf_amp : V4
  delta_high_shelf_amp : V4
  delta_width_coeff : ℚ
  delta_delay_increment : V4
  allpass_offsets : Four IV4
  allpass_mask : ℤ
  allpass_mask_v : IV4
  feedback_mask : ℤ
  feedback_mask_v : IV4

/-- The values the per-sample loop of `process_block` carries and
mutates: the `current_*` locals plus the `self` state the loop body
writes. -/
structure LoopState where
  current_chorus_amount : V4
  current_chorus_real : V4
  current_chorus_imaginary : V4
  current_pre_low_coeff : V4
  current_pre_high_coeff : V4
  current_low_shelf_coeff : V4
  current_high_shelf_coeff : V4
  current_dry_amp : V4
  current_wet_amp : V4
  current_low_shelf_amp : V4
  current_high_shelf_amp : V4
  current_width_coeff : ℚ
  current_delay_increment : V4
  current_sample_delay : V4
  current_decays : Four V4
  pre_low_filter : OnePoleFilter
  pre_high_filter : OnePoleFilter
  low_shelf_filters : Four OnePoleFilter
  high_shelf_filters : Four OnePoleFilter
  allpass_memories : Four (List ℚ)
  feedback_memories : Four (Four (List ℚ))
  stereo_memory : StereoMemory
  write_index : ℤ

/-- One iteration of the per-sample loop of `process_block`: consumes the
input frame `(l, r)` and produces the updated loop state and the output
frame. -/
def processSample (C : BlockConsts) (st : LoopState) (l r : ℚ) : LoopState × ℚ × ℚ :=
  -- Tick chorus
  let current_chorus_amount := st.current_chorus_amount + C.delta_chorus_amount
  let current_chorus_real := st.current_chorus_real * C.chorus_increment_real_v
      - st.current_chorus_imaginary * C.chorus_increment_imaginary_v
  let current_chorus_imaginary := st.current_chorus_imaginary * C.chorus_increment_real_v
      + current_chorus_real * C.chorus_increment_imaginary_v
  -- Apply chorus by offsetting the feedback offsets
  let feedback_offsets : Four V4 :=
    ⟨C.delays.c0 + current_chorus_real * current_chorus_amount,
     C.delays.c1 - current_chorus_real * current_chorus_amount,
     C.delays.c2 + current_chorus_imaginary * current_chorus_amount,
     C.delays.c3 - current_chorus_imaginary * current_chorus_amount⟩
  -- Read from the feedback memory
  let feedback_reads : Four V4 :=
    ⟨readFeedbackInterpolated st.write_index C.feedback_mask_v st.feedback_memories.c0
       feedback_offsets.c0,
     readFeedbackInterpolated st.write_index C.feedback_mask_v st.feedback_memories.c1
       feedback_offsets.c1,
     readFeedbackInterpolated st.write_index C.feedback_mask_v st.feedback_memories.c2
       feedback_offsets.c2,
     readFeedbackInterpolated st.write_index C.feedback_mask_v st.feedback_memories.c3
       feedback_offsets.c3⟩
  -- Get audio input
  let input : V4 := ⟨l, r, l, r⟩
  -- Apply pre-filters to input
  let tick_high := st.pre_high_filter.tick input st.current_pre_high_coeff
  let tick_low := st.pre_low_filter.tick input st.current_pre_low_coeff
  let filtered_input := tick_low.1 - tick_high.1
  let scaled_input := filtered_input * V4.splat 0.25
  -- Read the current state of allpass filters
  let allpass_reads : Four V4 :=
    ⟨readAllpass st.write_index C.allpass_mask_v st.allpass_memories.c0 C.allpass_offsets.c0,
     readAllpass st.write_index C.allpass_mask_v st.allpass_memories.c1 C.allpass_offsets.c1,
     readAllpass st.write_index C.allpass_mask_v st.allpass_memories.c2 C.allpass_offsets.c2,
     readAllpass st.write_index C.allpass_mask_v st.allpass_memories.c3 C.allpass_offsets.c3⟩
  -- Tick the allpass filters (ALLPASS_FEEDBACK = 0.6)
  let allpass_delay_inputs : Four V4 :=
    feedback_reads.zipWith (fun f a => f - a * V4.splat 0.6) allpass_reads
  -- Store the new state into the allpass memory
  let allpass_write_index := (Int.land (st.write_index * 4) C.allpass_mask).toNat
  let allpass_memories := st.allpass_memories.zipWith
    (fun memory delay_input => writeSlice4 memory allpass_write_index (scaled_input + delay_input))
    allpass_delay_inputs
  -- Apply the first set of allpass filters
  let allpass_outputs : Mat4 :=
    ⟨allpass_reads.c0 + allpass_delay_inputs.c0 * V4.splat 0.6,
     allpass_reads.c1 + allpass_delay_inputs.c1 * V4.splat 0.6,
     allpass_reads.c2 + allpass_delay_inputs.c2 * V4.splat 0.6,
     allpass_reads.c3 + allpass_delay_inputs.c3 * V4.splat 0.6⟩
  let writes : Mat4 := crossCouple allpass_outputs
  -- Apply the high and low shelf filters to the feedback signal
  let tick_h0 := st.high_shelf_filters.c0.tick writes.r0 st.current_high_shelf_coeff
  let tick_h1 := st.high_shelf_filters.c1.tick writes.r1 st.current_high_shelf_coeff
  let tick_h2 := st.high_shelf_filters.c2.tick writes.r2 st.current_high_shelf_coeff
  let tick_h3 := st.high_shelf_filters.c3.tick writes.r3 st.current_high_shelf_coeff
  let writes : Mat4 :=
    ⟨tick_h0.1 + st.current_high_shelf_amp * (writes.r0 - tick_h0.1),
     tick_h1.1 + st.current_high_shelf_amp * (writes.r1 - tick_h1.1),
     tick_h2.1 + st.current_high_shelf_amp * (writes.r2 - tick_h2.1),
     tick_h3.1 + st.current_high_shelf_amp * (writes.r3 - tick_h3.1)⟩
  let tick_l0 := st.low_shelf_filters.c0.tick writes.r0 st.current_low_shelf_coeff
  let tick_l1 := st.low_shelf_filters.c1.tick writes.r1 st.current_low_shelf_coeff
  let tick_l2 := st.low_shelf_filters.c2.tick writes.r2 st.current_low_shelf_coeff
  let tick_l3 := st.low_shelf_filters.c3.tick writes.r3 st.current_low_shelf_coeff
  let writes : Mat4 :=
    ⟨writes.r0 - tick_l0.1 * st.current_low_shelf_amp,
     writes.r1 - tick_l1.1 * st.current_low_shelf_amp,
     writes.r2 - tick_l2.1 * st.current_low_shelf_amp,
     writes.r3 - tick_l3.1 * st.current_low_shelf_amp⟩
  -- Increment the decay parameter
  let current_decays := st.current_decays.zipWith (· + ·) C.delta_decays
  -- Store the signal in the feedback memory
  let stores : Mat4 :=
    ⟨current_decays.c0 * writes.r0, current_decays.c1 * writes.r1,
     current_decays.c2 * writes.r2, current_decays.c3 * writes.r3⟩
  -- EXTRA_LOOKUP_SAMPLE = 1
  let feedback_write_index := (st.write_index + 1).toNat
  let writeLanes : Four (List ℚ) → V4 → Four (List ℚ) := fun mem4 v =>
    ⟨mem4.c0.set feedback_write_index v.a, mem4.c1.set feedback_write_index v.b,
     mem4.c2.set feedback_write_index v.c, mem4.c3.set feedback_write_index v.d⟩
  let feedback_memories : Four (Four (List ℚ)) :=
    ⟨writeLanes st.feedback_memories.c0 stores.r0,
     writeLanes st.feedback_memories.c1 stores.r1,
     writeLanes st.feedback_memories.c2 stores.r2,
     writeLanes st.feedback_memories.c3 stores.r3⟩
  -- Apply next set of allpass filters
  let feed_forward_vals : Mat4 := crossCouple stores
  -- Output accumulator (FEED_FORWARD_SCALE = 0.125)
  let total := writes.sumRows
  let total := total + (feed_forward_vals.r0 * current_decays.c0
      + feed_forward_vals.r1 * current_decays.c1
      + feed_forward_vals.r2 * current_decays.c2
      + feed_forward_vals.r3 * current_decays.c3) * V4.splat 0.125
  -- Push the output into the delay ring buffer
  let stereo_memory := st.stereo_memory.push (total + swapVoicesX4 total)
  -- Read the data from the delay ring buffer
  let wet := stereo_memory.getInterpolated st.current_sample_delay
  -- Apply stereo width control to the wet output
  let mid := (wet.a + wet.b) * 0.5
  let side := (wet.b - wet.a) * st.current_width_coeff
  let wet_left := mid - side
  let wet_right := mid + side
  let final_wet : V4 := ⟨wet_left, wet_right, 0, 0⟩
  -- Get the final output by mixing the wet and dry signals
  let final_output := st.current_wet_amp * final_wet + st.current_dry_amp * input
  -- Increment the write index for the next frame
  let write_index := Int.land (st.write_index + 1) C.feedback_mask
  -- Increment parameters
  let current_width_coeff := st.current_width_coeff + C.delta_width_coeff
  let current_delay_increment := st.current_delay_increment + C.delta_delay_increment
  let current_sample_delay := st.current_sample_delay + current_delay_increment
  let current_sample_delay := current_sample_delay.simdClamp (V4.splat 3) (V4.splat 192000)
  ({ current_chorus_amount := current_chorus_amount
     current_chorus_real := current_chorus_real
     current_chorus_imaginary := current_chorus_imaginary
     current_pre_low_coeff := st.current_pre_low_coeff + C.delta_pre_low_coeff
     current_pre_high_coeff := st.current_pre_high_coeff + C.delta_pre_high_coeff
     current_low_shelf_coeff := st.current_low_shelf_coeff + C.delta_low_shelf_coeff
     current_high_shelf_coeff := st.current_high_shelf_coeff + C.delta_high_shelf_coeff
     current_dry_amp := st.current_dry_amp + C.delta_dry_amp
     current_wet_amp := st.current_wet_amp + C.delta_wet_amp
     current_low_shelf_amp := st.current_low_shelf_amp + C.delta_low_shelf_amp
     current_high_shelf_amp := st.current_high_shelf_amp + C.delta_high_shelf_amp
     current_width_coeff := current_width_coeff
     current_delay_increment := current_delay_increment
     current_sample_delay := current_sample_delay
     current_decays := current_decays
     pre_low_filter := tick_low.2
     pre_high_filter := tick_high.2
     low_shelf_filters := ⟨tick_l0.2, tick_l1.2, tick_l2.2, tick_l3.2⟩
     high_shelf_filters := ⟨tick_h0.2, tick_h1.2, tick_h2.2, tick_h3.2⟩
     allpass_memories := allpass_memories
     feedback_memories := feedback_memories
     stereo_memory := stereo_memory
     write_index := write_index }, final_output.a, final_output.b)

/-- The per-sample loop of `process_block`, folded over the zipped
left/right frames; returns the final loop state and output frames. -/
def processLoop (C : BlockConsts) : LoopState → List (ℚ × ℚ) → LoopState × List (ℚ × ℚ)
  | st, [] => (st, [])
  | st, (l, r) :: rest =>
    let next := processSample C st l r
    let result := processLoop C next.1 rest
    (result.1, (next.2.1, next.2.2) :: result.2)

namespace Reverb

/-- The preparation phase of `Reverb::process_block` (everything before
the per-sample loop): the guard copy and the per-block parameter
preparation.  Returns the engine with all prepared fields committed, the
per-block constants, and the initial loop state.  Only the number of
frames (`left.length`) feeds this phase. -/
def prepareBlock (o : MathOracle) (rv : Reverb) (left : List ℚ)
    (params : ReverbParams) : Reverb × BlockConsts × LoopState :=
  -- Prepare constants
  let frames := left.length
  let tick_increment : ℚ := 1 / (frames : ℚ)
  let tick_increment_v := V4.splat tick_increment
  -- Wrap feedback memory buffers
  let rv := wrapGuards rv
  -- Prepare filter cutoff parameters: returns
  -- (updated prev cutoff, updated coeff target, current coeff, delta)
  let prepareFilterParam : ℚ → ℚ → V4 → ℚ × V4 × V4 × V4 := fun new_cut prev_cut coeff =>
    let curr_coeff := coeff
    let new_cut := clampQ new_cut 20 20000
    if prev_cut ≠ new_cut then
      let coeff2 := OnePoleFilter.compute_coeff o (V4.splat new_cut) rv.sample_rate_recip_v
      (new_cut, coeff2, curr_coeff, (coeff2 - curr_coeff) * tick_increment_v)
    else
      (prev_cut, coeff, curr_coeff, V4.splat 0)
  let pl := prepareFilterParam params.pre_low_cut_hz rv.prev_pre_low_cut_hz rv.pre_low_coeff
  let ph := prepareFilterParam params.pre_high_cut_hz rv.prev_pre_high_cut_hz rv.pre_high_coeff
  let ls := prepareFilterParam params.low_shelf_cut_hz rv.prev_low_shelf_cut_hz rv.low_shelf_coeff
  let hs := prepareFilterParam params.high_shelf_cut_hz rv.prev_high_shelf_cut_hz
    rv.high_shelf_coeff
  -- Prepare mix parameter
  let current_dry_amp := rv.dry_amp
  let current_wet_amp := rv.wet_amp
  let mix_val := clampQ params.mix 0 1
  let mix : ℚ × V4 × V4 × V4 × V4 :=
    if rv.prev_mix_val ≠ mix_val then
      let dry_amp := V4.splat (equalPowerFade o mix_val)
      let wet_amp := V4.splat (equalPowerFadeInverse o mix_val)
      (mix_val, dry_amp, wet_amp, (dry_amp - current_dry_amp) * tick_increment_v,
       (wet_amp - current_wet_amp) * tick_increment_v)
    else
      (rv.prev_mix_val, rv.dry_amp, rv.wet_amp, V4.splat 0, V4.splat 0)
  -- Prepare shelf gain parameters (MIN/MAX_SHELF_GAIN_DB = -6.0 / 0.0)
  let low_shelf_gain_db := clampQ params.low_shelf_gain_db (-6) 0
  let high_shelf_gain_db := clampQ params.high_shelf_gain_db (-6) 0
  let current_low_shelf_amp := rv.low_shelf_amp
  let current_high_shelf_amp := rv.high_shelf_amp
  let lsa : ℚ × V4 × V4 :=
    if rv.prev_low_shelf_gain_db ≠ low_shelf_gain_db then
      let amp := V4.splat (1 - dbToAmplitude o low_shelf_gain_db)
      (low_shelf_gain_db, amp, (amp - current_low_shelf_amp) * tick_increment_v)
    else
      (rv.prev_low_shelf_gain_db, rv.low_shelf_amp, V4.splat 0)
  let hsa : ℚ × V4 × V4 :=
    if rv.prev_high_shelf_gain_db ≠ high_shelf_gain_db then
      let amp := V4.splat (dbToAmplitude o high_shelf_gain_db)
      (high_shelf_gain_db, amp, (amp - current_high_shelf_amp) * tick_increment_v)
    else
      (rv.prev_high_shelf_gain_db, rv.high_shelf_amp, V4.splat 0)
  -- Prepare width parameter
  let current_width_coeff := rv.width_coeff
  let width_coeff := (clampQ params.width (-1) 1 + 1) * 0.5
  let delta_width_coeff := (width_coeff - current_width_coeff) * tick_increment
  -- Prepare size/decay parameters
  let current_decays := rv.decays
  let size_val := clampQ params.size 0 1
  let decay_val := clampQ params.decay 0.1 64
  let sd : ℚ × ℚ × V4 × Four V4 × Four V4 × Four V4 :=
    if rv.prev_size_val ≠ size_val ∨ rv.prev_decay_val ≠ decay_val then
      -- SIZE_POWER_RANGE = 4, MIN_SIZE_POWER = -3
      let size_mult_v :=
        if rv.prev_size_val ≠ size_val then
          V4.splat (o.pow2 (size_val * 4 + (-3)))
        else rv.size_mult_v
      -- BASE_SAMPLE_RATE = 44100, T60_AMPLITUDE = 0.001
      let decay_samples := V4.splat (decay_val * 44100)
      let decay_period := size_mult_v / decay_samples
      let decays := FEEDBACK_DELAYS.map fun fd => (fd * decay_period).mapLanes o.powT60
      let delays := FEEDBACK_DELAYS.map fun fd => size_mult_v * fd * rv.sample_rate_ratio_v
      (size_val, decay_val, size_mult_v, decays, delays,
       decays.zipWith (fun dNew dCur => (dNew - dCur) * tick_increment_v) current_decays)
    else
      (rv.prev_size_val, rv.prev_decay_val, rv.size_mult_v, rv.decays, rv.delays,
       ⟨V4.splat 0, V4.splat 0, V4.splat 0, V4.splat 0⟩)
  let prev_size_val := sd.1
  let prev_decay_val := sd.2.1
  let size_mult_v := sd.2.2.1
  let decays := sd.2.2.2.1
  let delays := sd.2.2.2.2.1
  let delta_decays := sd.2.2.2.2.2
  -- Prepare chorus parameters (MIN/MAX_CHORUS_FREQ = 0.003 / 8.0)
  let chorus_freq := clampQ params.chorus_freq_hz 0.003 8
  let chorus_phase_increment := chorus_freq * rv.sample_rate_recip
  let ch : ℚ × V4 × V4 :=
    if rv.prev_chorus_freq_hz ≠ chorus_freq then
      (chorus_freq, V4.splat (o.cos (chorus_phase_increment * (2 * o.pi))),
       V4.splat (o.sin (chorus_phase_increment * (2 * o.pi))))
    else
      (rv.prev_chorus_freq_hz, rv.chorus_increment_real_v, rv.chorus_increment_imaginary_v)
  -- NETWORK_OFFSET = 2π / NETWORK_SIZE with NETWORK_SIZE = 16
  let phase_offset := (⟨0, 1, 2, 3⟩ : V4) * V4.splat (2 * o.pi / 16)
  let container_phase := phase_offset + V4.splat rv.chorus_phase * V4.splat (2 * o.pi)
  let chorus_phase := rv.chorus_phase + (frames : ℚ) * chorus_phase_increment
  let chorus_phase := chorus_phase - (⌊chorus_phase⌋ : ℚ)
  let current_chorus_real := container_phase.mapLanes o.cos
  let current_chorus_imaginary := container_phase.mapLanes o.sin
  let current_chorus_amount := rv.chorus_amount
  -- MAX_CHORUS_DRIFT = 2500
  let chorus_amount :=
    V4.splat (clampQ params.chorus_amount 0 1 * 2500 * rv.sample_rate_ratio)
  let chorus_amount := chorus_amount.simdMin (delays.c0 - V4.splat 8 * V4.splat 4)
  let chorus_amount := chorus_amount.simdMin (delays.c1 - V4.splat 8 * V4.splat 4)
  let chorus_amount := chorus_amount.simdMin (delays.c2 - V4.splat 8 * V4.splat 4)
  let chorus_amount := chorus_amount.simdMin (delays.c3 - V4.splat 8 * V4.splat 4)
  let delta_chorus_amount := (chorus_amount - current_chorus_amount) * tick_increment_v
  -- Prepare delay parameter (MIN_DELAY = 3, MAX_SAMPLE_RATE = 192000,
  -- SAMPLE_DELAY_MULTIPLIER = SAMPLE_INCREMENT_MULTIPLIER = 0.05)
  let current_sample_delay := rv.sample_delay
  let current_delay_increment := rv.sample_delay_increment
  let end_target := current_sample_delay + current_delay_increment * V4.splat (frames : ℚ)
  let target_delay :=
    let target_scalar := clampQ (params.delay * rv.sample_rate) 3 192000
    interpolateF32 rv.sample_delay (V4.splat target_scalar) (V4.splat 0.05)
  let makeup_delay := target_delay - end_target
  let delta_delay_increment :=
    makeup_delay / V4.splat (0.5 * (frames : ℚ) * (frames : ℚ)) * V4.splat 0.05
  -- Process loop
  let C : BlockConsts :=
    { delta_chorus_amount := delta_chorus_amount
      chorus_increment_real_v := ch.2.1
      chorus_increment_imaginary_v := ch.2.2
      delays := delays
      delta_decays := delta_decays
      delta_pre_low_coeff := pl.2.2.2
      delta_pre_high_coeff := ph.2.2.2
      delta_low_shelf_coeff := ls.2.2.2
      delta_high_shelf_coeff := hs.2.2.2
      delta_dry_amp := mix.2.2.2.1
      delta_wet_amp := mix.2.2.2.2
      delta_low_shelf_amp := lsa.2.2
      delta_high_shelf_amp := hsa.2.2
      delta_width_coeff := delta_width_coeff
      delta_delay_increment := delta_delay_increment
      allpass_offsets := rv.allpass_offsets
      allpass_mask := rv.allpass_mask
      allpass_mask_v := rv.allpass_mask_v
      feedback_mask := rv.feedback_mask
      feedback_mask_v := rv.feedback_mask_v }
  let st0 : LoopState :=
    { current_chorus_amount := current_chorus_amount
      current_chorus_real := current_chorus_real
      current_chorus_imaginary := current_chorus_imaginary
      current_pre_low_coeff := pl.2.2.1
      current_pre_high_coeff := ph.2.2.1
      current_low_shelf_coeff := ls.2.2.1
      current_high_shelf_coeff := hs.2.2.1
      current_dry_amp := current_dry_amp
      current_wet_amp := current_wet_amp
      current_low_shelf_amp := current_low_shelf_amp
      current_high_shelf_amp := current_high_shelf_amp
      current_width_coeff := current_width_coeff
      current_delay_increment := current_delay_increment
      current_sample_delay := current_sample_delay
      current_decays := current_decays
      pre_low_filter := rv.pre_low_filter
      pre_high_filter := rv.pre_high_filter
      low_shelf_filters := rv.low_shelf_filters
      high_shelf_filters := rv.high_shelf_filters
      allpass_memories := rv.allpass_memories
      feedback_memories := rv.feedback_memories
      stereo_memory := rv.stereo_memory
      write_index := rv.write_index }
  ({ rv with
      prev_pre_low_cut_hz := pl.1
      pre_low_coeff := pl.2.1
      prev_pre_high_cut_hz := ph.1
      pre_high_coeff := ph.2.1
      prev_low_shelf_cut_hz := ls.1
      low_shelf_coeff := ls.2.1
      prev_high_shelf_cut_hz := hs.1
      high_shelf_coeff := hs.2.1
      prev_mix_val := mix.1
      dry_amp := mix.2.1
      wet_amp := mix.2.2.1
      prev_low_shelf_gain_db := lsa.1
      low_shelf_amp := lsa.2.1
      prev_high_shelf_gain_db := hsa.1
      high_shelf_amp := hsa.2.1
      width_coeff := width_coeff
      prev_size_val := prev_size_val
      prev_decay_val := prev_decay_val
      size_mult_v := size_mult_v
      decays := decays
      delays := delays
      prev_chorus_freq_hz := ch.1
      chorus_increment_real_v := ch.2.1
      chorus_increment_imaginary_v := ch.2.2
      chorus_phase := chorus_phase
      chorus_amount := chorus_amount },
   C, st0)

/-- `Reverb::process_block`: preparation, then the per-sample loop over
the zipped frames, then the write-back of the loop-carried state; returns
the updated engine and the two output buffers (the Rust method writes
them in place). -/
def processBlock (o : MathOracle) (rv : Reverb) (left right : List ℚ)
    (params : ReverbParams) : Reverb × List ℚ × List ℚ :=
  let prep := prepareBlock o rv left params
  let loop_result := processLoop prep.2.1 prep.2.2 (left.zip right)
  let stF := loop_result.1
  let out := loop_result.2
  ({ prep.1 with
      pre_low_filter := stF.pre_low_filter
      pre_high_filter := stF.pre_high_filter
      low_shelf_filters := stF.low_shelf_filters
      high_shelf_filters := stF.high_shelf_filters
      allpass_memories := stF.allpass_memories
      feedback_memories := stF.feedback_memories
      stereo_memory := stF.stereo_memory
      write_index := stF.write_index
      -- Store the state of the delay parameter for the next call
      sample_delay_increment := stF.current_delay_increment
      sample_delay := stF.current_sample_delay },
   out.map Prod.fst, out.map Prod.snd)

/-- The `while processed_frames < total_frames` re-blocking loop of
`Reverb::process`, acting on the not-yet-processed suffixes of the two
buffers (`MAX_BLOCK_SIZE = 128`). -/
def processChunks (o : MathOracle) (params : ReverbParams) (rv : Reverb)
    (left right : List ℚ) : Reverb × List ℚ × List ℚ :=
  if h : left.isEmpty then (rv, [], [])
  else
    let frames := min left.length 128
    let block := processBlock o rv (left.take frames) (right.take frames) params
    let rest := processChunks o params block.1 (left.drop frames) (right.drop frames)
    (rest.1, block.2.1 ++ rest.2.1, block.2.2 ++ rest.2.2)
termination_by left.length
decreasing_by
  have hne : left ≠ [] := by simpa [List.isEmpty_iff] using h
  have hpos : 0 < left.length := List.length_pos.mpr hne
  simp only [List.length_drop]
  omega

/-- `Reverb::process`.  The two panics of the source —
`assert!(self.did_init)` and the slice `&mut right[0..left.len()]` when
`right` is shorter than `left` — are modeled as `none`; a normal return
delivers the updated engine and the two buffers as written back. -/
def process (o : MathOracle) (rv : Reverb) (left right : List ℚ)
    (params : ReverbParams) : Option (Reverb × List ℚ × List ℚ) :=
  if rv.did_init = false then none
  else if right.length < left.length then none
  else
    let result := processChunks o params rv left (right.take left.length)
    some (result.1, result.2.1, result.2.2 ++ right.drop left.length)

end Reverb

-- --------------------------------------------------------------------------
-- Concrete probe values used by counterexamples and witnesses

/-- Per-block constants describing a 90° rotation step
(`c = cos = 0`, `s = sin = 1`) with all deltas zero. -/
def probeConsts : BlockConsts :=
  { delta_chorus_amount := V4.splat 0
    chorus_increment_real_v := V4.splat 0
    chorus_increment_imaginary_v := V4.splat 1
    delays := ⟨V4.splat 0, V4.splat 0, V4.splat 0, V4.splat 0⟩
    delta_decays := ⟨V4.splat 0, V4.splat 0, V4.splat 0, V4.splat 0⟩
    delta_pre_low_coeff := V4.splat 0
    delta_pre_high_coeff := V4.splat 0
    delta_low_shelf_coeff := V4.splat 0
    delta_high_shelf_coeff := V4.splat 0
    delta_dry_amp := V4.splat 0
    delta_wet_amp := V4.splat 0
    delta_low_shelf_amp := V4.splat 0
    delta_high_shelf_amp := V4.splat 0
    delta_width_coeff := 0
    delta_delay_increment := V4.splat 0
    allpass_offsets := ⟨IV4.splat 0, IV4.splat 0, IV4.splat 0, IV4.splat 0⟩
    allpass_mask := 0
    allpass_mask_v := IV4.splat 0
    feedback_mask := 0
    feedback_mask_v := IV4.splat 0 }

/-- A loop state with the chorus oscillator at `(real, imag) = (1, 0)`
and everything else zeroed. -/
def probeState : LoopState :=
  { current_chorus_amount := V4.splat 0
    current_chorus_real := V4.splat 1
    current_chorus_imaginary := V4.splat 0
    current_pre_low_coeff := V4.splat 0
    current_pre_high_coeff := V4.splat 0
    current_low_shelf_coeff := V4.splat 0
    current_high_shelf_coeff := V4.splat 0
    current_dry_amp := V4.splat 0
    current_wet_amp := V4.splat 0
    current_low_shelf_amp := V4.splat 0
    current_high_shelf_amp := V4.splat 0
    current_width_coeff := 0
    current_delay_increment := V4.splat 0
    current_sample_delay := V4.splat 3
    current_decays := ⟨V4.splat 0, V4.splat 0, V4.splat 0, V4.splat 0⟩
    pre_low_filter := OnePoleFilter.new
    pre_high_filter := OnePoleFilter.new
    low_shelf_filters :=
      ⟨OnePoleFilter.new, OnePoleFilter.new, OnePoleFilter.new, OnePoleFilter.new⟩
    high_shelf_filters :=
      ⟨OnePoleFilter.new, OnePoleFilter.new, OnePoleFilter.new, OnePoleFilter.new⟩
    allpass_memories := ⟨[], [], [], []⟩
    feedback_memories :=
      ⟨⟨[], [], [], []⟩, ⟨[], [], [], []⟩, ⟨[], [], [], []⟩, ⟨[], [], [], []⟩⟩
    stereo_memory := ⟨[], [], 0, 0, IV4.splat 0, 0⟩
    write_index := 0 }

/-- A small initialized engine state used to exercise `process` on
concrete buffers: guard-sized feedback buffers of length
`max_feedback_size + 4 = 8`, tiny ring memories, `did_init = true`. -/
def testReverb : Reverb :=
  { Reverb.default with
    did_init := true
    max_feedback_size := 4
    feedback_mask := 3
    feedback_mask_v := IV4.splat 3
    allpass_mask := 15
    allpass_mask_v := IV4.splat 15
    allpass_memories :=
      ⟨List.replicate 16 0, List.replicate 16 0, List.replicate 16 0, List.replicate 16 0⟩
    feedback_memories :=
      ⟨⟨[1, 2, 3, 4, 5, 6, 7, 8], [1, 2, 3, 4, 5, 6, 7, 8],
        [1, 2, 3, 4, 5, 6, 7, 8], [1, 2, 3, 4, 5, 6, 7, 8]⟩,
       ⟨[1, 2, 3, 4, 5, 6, 7, 8], [1, 2, 3, 4, 5, 6, 7, 8],
        [1, 2, 3, 4, 5, 6, 7, 8], [1, 2, 3, 4, 5, 6, 7, 8]⟩,
       ⟨[1, 2, 3, 4, 5, 6, 7, 8], [1, 2, 3, 4, 5, 6, 7, 8],
        [1, 2, 3, 4, 5, 6, 7, 8], [1, 2, 3, 4, 5, 6, 7, 8]⟩,
       ⟨[1, 2, 3, 4, 5, 6, 7, 8], [1, 2, 3, 4, 5, 6, 7, 8],
        [1, 2, 3, 4, 5, 6, 7, 8], [1, 2, 3, 4, 5, 6, 7, 8]⟩⟩
    stereo_memory := ⟨List.replicate 8 0, List.replicate 8 0, 4, 3, IV4.splat 3, 0⟩
    sample_rate := 48000
    sample_rate_recip := 1 / 48000
    sample_rate_recip_v := V4.splat (1 / 48000)
    sample_rate_ratio := 48000 / 44100
    sample_rate_ratio_v := V4.splat (48000 / 44100)
    buffer_scale := 2 }

-- --------------------------------------------------------------------------
-- Lane-projection lemmas for the SIMD model

@[simp] theorem V4.add_a (x y : V4) : (x + y).a = x.a + y.a := rfl

@[simp] theorem V4.add_b (x y : V4) : (x + y).b = x.b + y.b := rfl

@[simp] theorem V4.add_c (x y : V4) : (x + y).c = x.c + y.c := rfl

@[simp] theorem V4.add_d (x y : V4) : (x + y).d = x.d + y.d := rfl

@[simp] theorem V4.sub_a (x y : V4) : (x - y).a = x.a - y.a := rfl

@[simp] theorem V4.sub_b (x y : V4) : (x - y).b = x.b - y.b := rfl

@[simp] theorem V4.sub_c (x y : V4) : (x - y).c = x.c - y.c := rfl

@[simp] theorem V4.sub_d (x y : V4) : (x - y).d = x.d - y.d := rfl

@[simp] theorem V4.mul_a (x y : V4) : (x * y).a = x.a * y.a := rfl

@[simp] theorem V4.mul_b (x y : V4) : (x * y).b = x.b * y.b := rfl

@[simp] theorem V4.mul_c (x y : V4) : (x * y).c = x.c * y.c := rfl

@[simp] theorem V4.mul_d (x y : V4) : (x * y).d = x.d * y.d := rfl

@[simp] theorem V4.splat_a (x : ℚ) : (V4.splat x).a = x := rfl

@[simp] theorem V4.splat_b (x : ℚ) : (V4.splat x).b = x := rfl

@[simp] theorem V4.splat_c (x : ℚ) : (V4.splat x).c = x := rfl

@[simp] theorem V4.splat_d (x : ℚ) : (V4.splat x).d = x := rfl

/-- Equality of `V4` values is lane-wise equality. -/
theorem V4.eq_iff (x y : V4) : x = y ↔ x.a = y.a ∧ x.b = y.b ∧ x.c = y.c ∧ x.d = y.d := by
  cases x; cases y; simp [V4.mk.injEq]

/-- Indexing a mapped container. -/
theorem Four.get_map {α β : Type} (g : α → β) (f : Four α) (i : Fin 4) :
    (f.map g).get i = g (f.get i) := by
  fin_cases i <;> rfl

-- --------------------------------------------------------------------------
-- Claim theorems

/-- C5. `Matrix::transpose` is self-inverse: transposing a 4×4 block twice
returns the original matrix in every lane of every row. -/
theorem matrix_transpose_involutive (m : Mat4) : m.transpose.transpose = m := rfl

/-- C4. `OnePoleFilter::tick(x, a)` computes `δ = a·(x − filter_state)`
and returns `old_filter_state + δ`, stores that value as `current_state`,
and leaves `filter_state = old_filter_state + 2δ`. -/
theorem one_pole_tick_spec (f : OnePoleFilter) (x a : V4) :
    (f.tick x a).1 = f.filter_state + a * (x - f.filter_state) ∧
    ((f.tick x a).2).current_state = (f.tick x a).1 ∧
    ((f.tick x a).2).filter_state =
      f.filter_state + V4.splat 2 * (a * (x - f.filter_state)) := by
  refine ⟨rfl, rfl, ?_⟩
  rw [V4.eq_iff]
  refine ⟨?_, ?_, ?_, ?_⟩ <;> · simp [OnePoleFilter.tick]; ring

/-- C2 (amended). In every iteration of the per-sample loop, the chorus
pair is updated sequentially: the new real part is
`real·c − imag·s` (from the pre-iteration pair), while the new imaginary
part is `imag·c + new_real·s`, i.e. it uses the already-updated real
part, not the pre-iteration one. -/
theorem chorus_update_uses_new_real (C : BlockConsts) (st : LoopState) (l r : ℚ) :
    ((processSample C st l r).1).current_chorus_real =
      st.current_chorus_real * C.chorus_increment_real_v
        - st.current_chorus_imaginary * C.chorus_increment_imaginary_v ∧
    ((processSample C st l r).1).current_chorus_imaginary =
      st.current_chorus_imaginary * C.chorus_increment_real_v
        + (st.current_chorus_real * C.chorus_increment_real_v
            - st.current_chorus_imaginary * C.chorus_increment_imaginary_v)
          * C.chorus_increment_imaginary_v := ⟨rfl, rfl⟩

/-- C3 (amended). The cross-coupling quantity added to each row is
`other_feedback = (Σ_lanes total)·0.25 − 0.5·total` lane-wise (the
`mul_add_f32(a, b, c)` helper computes `a + b·c`, so the lane-sum term is
the addend and `total` is scaled by `−0.5`). -/
theorem other_feedback_lane_formula (m : Mat4) (i : Fin 4) :
    (otherFeedbackOf m).get i =
      (m.sumRows.a + m.sumRows.b + m.sumRows.c + m.sumRows.d) * 0.25
        - 0.5 * m.sumRows.get i := by
  fin_cases i <;>
    · simp [otherFeedbackOf, mulAddF32, V4.get, V4.reduceSum]
      ring

/-- C3 (counterexample). At the allpass-output matrix with first row
`(2, 0, 0, 0)` and zero elsewhere, the code's `other_feedback` differs
from the claimed `(Σ_lanes total · 0.25) · total − 0.5`. -/
theorem other_feedback_spec_formula_false :
    otherFeedbackOf ⟨⟨2, 0, 0, 0⟩, V4.splat 0, V4.splat 0, V4.splat 0⟩ ≠
      V4.splat
          ((Mat4.sumRows ⟨⟨2, 0, 0, 0⟩, V4.splat 0, V4.splat 0, V4.splat 0⟩).reduceSum * 0.25)
        * Mat4.sumRows ⟨⟨2, 0, 0, 0⟩, V4.splat 0, V4.splat 0, V4.splat 0⟩
        - V4.splat 0.5 := by decide

/-- C2 (counterexample). At the concrete rotation step
`(c, s) = (0, 1)` applied to the pre-iteration pair `(1, 0)`, the loop
body does not produce the simultaneous-rotation value
`imag·c + real·s = 1` for the imaginary component (it produces `0`,
because the real component has already been overwritten). -/
theorem chorus_update_not_simultaneous :
    ((processSample probeConsts probeState 0 0).1).current_chorus_imaginary ≠
      probeState.current_chorus_imaginary * probeConsts.chorus_increment_real_v
        + probeState.current_chorus_real * probeConsts.chorus_increment_imaginary_v := by
  decide

-- --------------------------------------------------------------------------
-- C6: the guard-copy invariant

/-- Setting one index leaves every other index unchanged. -/
theorem getD_set_ne (l : List ℚ) (i j : ℕ) (x : ℚ) (hij : i ≠ j) :
    (l.set i x).getD j 0 = l.getD j 0 := by
  simp [List.getD_eq_getElem?_getD, List.getElem?_set_ne hij]

/-- Setting an in-bounds index stores the given value there. -/
theorem getD_set_self (l : List ℚ) (i : ℕ) (x : ℚ) (hi : i < l.length) :
    (l.set i x).getD i 0 = x := by
  simp [List.getD_eq_getElem?_getD, List.getElem?_set_self hi]

/-- After the guard copy, a feedback buffer of the shape established by
`init` (length `m + 4` with `4 ≤ m`) mirrors its head into the guard
region. -/
theorem wrapBuffer_guard (m : ℕ) (buf : List ℚ) (hm : 4 ≤ m)
    (hlen : buf.length = m + 4) :
    (wrapBuffer m buf).getD 0 0 = (wrapBuffer m buf).getD m 0 ∧
    (wrapBuffer m buf).getD (m + 1) 0 = (wrapBuffer m buf).getD 1 0 ∧
    (wrapBuffer m buf).getD (m + 2) 0 = (wrapBuffer m buf).getD 2 0 ∧
    (wrapBuffer m buf).getD (m + 3) 0 = (wrapBuffer m buf).getD 3 0 := by
  have e0 : (wrapBuffer m buf).getD 0 0 = buf.getD m 0 := by
    simp only [wrapBuffer]
    rw [getD_set_ne _ _ _ _ (by omega), getD_set_ne _ _ _ _ (by omega),
        getD_set_ne _ _ _ _ (by omega), getD_set_self _ _ _ (by omega)]
  have em : (wrapBuffer m buf).getD m 0 = buf.getD m 0 := by
    simp only [wrapBuffer]
    rw [getD_set_ne _ _ _ _ (by omega), getD_set_ne _ _ _ _ (by omega),
        getD_set_ne _ _ _ _ (by omega), getD_set_ne _ _ _ _ (by omega)]
  have em1 : (wrapBuffer m buf).getD (m + 1) 0 = buf.getD 1 0 := by
    simp only [wrapBuffer]
    rw [getD_set_ne _ _ _ _ (by omega), getD_set_ne _ _ _ _ (by omega),
        getD_set_self _ _ _ (by simp only [List.length_set]; omega),
        getD_set_ne _ _ _ _ (by omega)]
  have e1 : (wrapBuffer m buf).getD 1 0 = buf.getD 1 0 := by
    simp only [wrapBuffer]
    rw [getD_set_ne _ _ _ _ (by omega), getD_set_ne _ _ _ _ (by omega),
        getD_set_ne _ _ _ _ (by omega), getD_set_ne _ _ _ _ (by omega)]
  have em2 : (wrapBuffer m buf).getD (m + 2) 0 = buf.getD 2 0 := by
    simp only [wrapBuffer]
    rw [getD_set_ne _ _ _ _ (by omega),
        getD_set_self _ _ _ (by simp only [List.length_set]; omega),
        getD_set_ne _ _ _ _ (by omega), getD_set_ne _ _ _ _ (by omega)]
  have e2 : (wrapBuffer m buf).getD 2 0 = buf.getD 2 0 := by
    simp only [wrapBuffer]
    rw [getD_set_ne _ _ _ _ (by omega), getD_set_ne _ _ _ _ (by omega),
        getD_set_ne _ _ _ _ (by omega), getD_set_ne _ _ _ _ (by omega)]
  have em3 : (wrapBuffer m buf).getD (m + 3) 0 = buf.getD 3 0 := by
    simp only [wrapBuffer]
    rw [getD_set_self _ _ _ (by simp only [List.length_set]; omega),
        getD_set_ne _ _ _ _ (by omega), getD_set_ne _ _ _ _ (by omega),
        getD_set_ne _ _ _ _ (by omega)]
  have e3 : (wrapBuffer m buf).getD 3 0 = buf.getD 3 0 := by
    simp only [wrapBuffer]
    rw [getD_set_ne _ _ _ _ (by omega), getD_set_ne _ _ _ _ (by omega),
        getD_set_ne _ _ _ _ (by omega), getD_set_ne _ _ _ _ (by omega)]
  exact ⟨e0.trans em.symm, em1.trans e1.symm, em2.trans e2.symm, em3.trans e3.symm⟩

/-- C6. At the top of each block — after the guard-copy step of
`process_block`, before the per-sample loop — every feedback buffer `buf`
of the `init`-established shape satisfies
`buf[0] = buf[max_feedback_size]` and `buf[max_feedback_size + k] =
buf[k]` for `k ∈ {1, 2, 3}`. -/
theorem wrap_guards_invariant (rv : Reverb) (hm : 4 ≤ rv.max_feedback_size)
    (hlen : ∀ i j : Fin 4,
      ((rv.feedback_memories.get i).get j).length = rv.max_feedback_size + 4)
    (i j : Fin 4) :
    (((wrapGuards rv).feedback_memories.get i).get j).getD 0 0 =
      (((wrapGuards rv).feedback_memories.get i).get j).getD rv.max_feedback_size 0 ∧
    (((wrapGuards rv).feedback_memories.get i).get j).getD (rv.max_feedback_size + 1) 0 =
      (((wrapGuards rv).feedback_memories.get i).get j).getD 1 0 ∧
    (((wrapGuards rv).feedback_memories.get i).get j).getD (rv.max_feedback_size + 2) 0 =
      (((wrapGuards rv).feedback_memories.get i).get j).getD 2 0 ∧
    (((wrapGuards rv).feedback_memories.get i).get j).getD (rv.max_feedback_size + 3) 0 =
      (((wrapGuards rv).feedback_memories.get i).get j).getD 3 0 := by
  have hw : ((wrapGuards rv).feedback_memories.get i).get j =
      wrapBuffer rv.max_feedback_size ((rv.feedback_memories.get i).get j) := by
    show ((rv.feedback_memories.map
      (Four.map (wrapBuffer rv.max_feedback_size))).get i).get j = _
    rw [Four.get_map, Four.get_map]
  rw [hw]
  exact wrapBuffer_guard _ _ hm (hlen i j)

/-- C6 (witness). The hypotheses and conclusion of the guard invariant at
the concrete engine state `testReverb` (feedback size 4, buffers of
length 8). -/
theorem wrap_guards_invariant_witness :
    4 ≤ testReverb.max_feedback_size ∧
    (∀ i j : Fin 4,
      ((testReverb.feedback_memories.get i).get j).length =
        testReverb.max_feedback_size + 4) ∧
    ((((wrapGuards testReverb).feedback_memories.get 0).get 0).getD 0 0 =
      (((wrapGuards testReverb).feedback_memories.get 0).get 0).getD
        testReverb.max_feedback_size 0 ∧
    (((wrapGuards testReverb).feedback_memories.get 0).get 0).getD
        (testReverb.max_feedback_size + 1) 0 =
      (((wrapGuards testReverb).feedback_memories.get 0).get 0).getD 1 0 ∧
    (((wrapGuards testReverb).feedback_memories.get 0).get 0).getD
        (testReverb.max_feedback_size + 2) 0 =
      (((wrapGuards testReverb).feedback_memories.get 0).get 0).getD 2 0 ∧
    (((wrapGuards testReverb).feedback_memories.get 0).get 0).getD
        (testReverb.max_feedback_size + 3) 0 =
      (((wrapGuards testReverb).feedback_memories.get 0).get 0).getD 3 0) :=
  ⟨by decide, by decide, wrap_guards_invariant testReverb (by decide) (by decide) 0 0⟩

-- --------------------------------------------------------------------------
-- C8: reset

/-- C8. `reset()` zeroes both one-pole pre-filters, all eight shelf
filters, all sixteen feedback buffers, all four allpass buffers and both
stereo rings (keeping their lengths), and modifies nothing else: every
cached derived parameter (the `prev_*` shadows, decays, delays,
`size_mult`, dry/wet amps, masks, offsets, rates) and every remaining
field is unchanged. -/
theorem reset_zeroes_buffers_preserves_parameters (rv : Reverb) :
    ((rv.reset).pre_low_filter = OnePoleFilter.new ∧
     (rv.reset).pre_high_filter = OnePoleFilter.new ∧
     (∀ i : Fin 4, (rv.reset).low_shelf_filters.get i = OnePoleFilter.new) ∧
     (∀ i : Fin 4, (rv.reset).high_shelf_filters.get i = OnePoleFilter.new) ∧
     (∀ i j : Fin 4, ((rv.reset).feedback_memories.get i).get j =
        List.replicate (((rv.feedback_memories.get i).get j).length) 0) ∧
     (∀ i : Fin 4, (rv.reset).allpass_memories.get i =
        List.replicate ((rv.allpass_memories.get i).length) 0) ∧
     (rv.reset).stereo_memory.left = List.replicate rv.stereo_memory.left.length 0 ∧
     (rv.reset).stereo_memory.right = List.replicate rv.stereo_memory.right.length 0) ∧
    ((rv.reset).stereo_memory.size = rv.stereo_memory.size ∧
     (rv.reset).stereo_memory.bitmask = rv.stereo_memory.bitmask ∧
     (rv.reset).stereo_memory.bitmask_v = rv.stereo_memory.bitmask_v ∧
     (rv.reset).stereo_memory.offset = rv.stereo_memory.offset) ∧
    ((rv.reset).decays = rv.decays ∧
     (rv.reset).pre_low_coeff = rv.pre_low_coeff ∧
     (rv.reset).pre_high_coeff = rv.pre_high_coeff ∧
     (rv.reset).low_shelf_coeff = rv.low_shelf_coeff ∧
     (rv.reset).high_shelf_coeff = rv.high_shelf_coeff ∧
     (rv.reset).low_shelf_amp = rv.low_shelf_amp ∧
     (rv.reset).high_shelf_amp = rv.high_shelf_amp ∧
     (rv.reset).chorus_phase = rv.chorus_phase ∧
     (rv.reset).chorus_amount = rv.chorus_amount ∧
     (rv.reset).sample_delay = rv.sample_delay ∧
     (rv.reset).sample_delay_increment = rv.sample_delay_increment ∧
     (rv.reset).dry_amp = rv.dry_amp ∧
     (rv.reset).wet_amp = rv.wet_amp ∧
     (rv.reset).width_coeff = rv.width_coeff ∧
     (rv.reset).write_index = rv.write_index ∧
     (rv.reset).max_feedback_size = rv.max_feedback_size ∧
     (rv.reset).feedback_mask = rv.feedback_mask ∧
     (rv.reset).feedback_mask_v = rv.feedback_mask_v ∧
     (rv.reset).allpass_mask = rv.allpass_mask ∧
     (rv.reset).allpass_mask_v = rv.allpass_mask_v ∧
     (rv.reset).delay_offset_v = rv.delay_offset_v ∧
     (rv.reset).allpass_offsets = rv.allpass_offsets ∧
     (rv.reset).delays = rv.delays) ∧
    ((rv.reset).prev_pre_low_cut_hz = rv.prev_pre_low_cut_hz ∧
     (rv.reset).prev_pre_high_cut_hz = rv.prev_pre_high_cut_hz ∧
     (rv.reset).prev_low_shelf_cut_hz = rv.prev_low_shelf_cut_hz ∧
     (rv.reset).prev_high_shelf_cut_hz = rv.prev_high_shelf_cut_hz ∧
     (rv.reset).prev_size_val = rv.prev_size_val ∧
     (rv.reset).prev_decay_val = rv.prev_decay_val ∧
     (rv.reset).prev_chorus_freq_hz = rv.prev_chorus_freq_hz ∧
     (rv.reset).prev_mix_val = rv.prev_mix_val ∧
     (rv.reset).prev_low_shelf_gain_db = rv.prev_low_shelf_gain_db ∧
     (rv.reset).prev_high_shelf_gain_db = rv.prev_high_shelf_gain_db ∧
     (rv.reset).size_mult_v = rv.size_mult_v ∧
     (rv.reset).chorus_increment_real_v = rv.chorus_increment_real_v ∧
     (rv.reset).chorus_increment_imaginary_v = rv.chorus_increment_imaginary_v ∧
     (rv.reset).sample_rate = rv.sample_rate ∧
     (rv.reset).sample_rate_recip = rv.sample_rate_recip ∧
     (rv.reset).sample_rate_recip_v = rv.sample_rate_recip_v ∧
     (rv.reset).sample_rate_ratio = rv.sample_rate_ratio ∧
     (rv.reset).sample_rate_ratio_v = rv.sample_rate_ratio_v ∧
     (rv.reset).buffer_scale = rv.buffer_scale ∧
     (rv.reset).did_init = rv.did_init) := by
  refine ⟨⟨rfl, rfl, ?_, ?_, ?_, ?_, ?_, ?_⟩,
    ⟨rfl, rfl, rfl, rfl⟩,
    ⟨rfl, rfl, rfl, rfl, rfl, rfl, rfl, rfl, rfl, rfl, rfl, rfl,
     rfl, rfl, rfl, rfl, rfl, rfl, rfl, rfl, rfl, rfl, rfl⟩,
    ⟨rfl, rfl, rfl, rfl, rfl, rfl, rfl, rfl, rfl, rfl, rfl, rfl,
     rfl, rfl, rfl, rfl, rfl, rfl, rfl, rfl⟩⟩
  · intro i
    show (rv.low_shelf_filters.map OnePoleFilter.reset).get i = _
    rw [Four.get_map]; rfl
  · intro i
    show (rv.high_shelf_filters.map OnePoleFilter.reset).get i = _
    rw [Four.get_map]; rfl
  · intro i j
    show ((rv.feedback_memories.map (Four.map (List.map fun _ => (0 : ℚ)))).get i).get j = _
    rw [Four.get_map, Four.get_map, List.map_const']
  · intro i
    show (rv.allpass_memories.map (List.map fun _ => (0 : ℚ))).get i = _
    rw [Four.get_map, List.map_const']
  · show rv.stereo_memory.left.map (fun _ => (0 : ℚ)) = _
    rw [List.map_const']
  · show rv.stereo_memory.right.map (fun _ => (0 : ℚ)) = _
    rw [List.map_const']

-- --------------------------------------------------------------------------
-- C7: power-of-two invariants of init

/-- The scale loop of `get_buffer_scale`, started at a power of two all of
whose smaller powers are below `ratio`, returns the least power of two
that is at least `ratio`. -/
theorem bufferScaleLoop_spec (scale : ℕ) (ratio : ℚ) :
    ∀ m : ℕ, scale = 2 ^ m →
    (∀ j : ℕ, ((2 : ℚ) ^ j) < (scale : ℚ) → ((2 : ℚ) ^ j) < ratio) →
    ∃ k : ℕ, bufferScaleLoop scale ratio = 2 ^ k ∧ ratio ≤ ((2 : ℚ) ^ k) ∧
      ∀ j : ℕ, ratio ≤ ((2 : ℚ) ^ j) → k ≤ j := by
  induction scale, ratio using bufferScaleLoop.induct with
  | case1 scale ratio h ih =>
    intro m hm hmin
    rw [bufferScaleLoop, dif_pos h]
    refine ih (m + 1) (by rw [hm]; ring) ?_
    intro j hj
    have hj2 : ((2 : ℚ) ^ j) < 2 ^ (m + 1) := by
      calc ((2 : ℚ) ^ j) < ((2 * scale : ℕ) : ℚ) := hj
      _ = 2 ^ (m + 1) := by rw [hm]; push_cast; ring
    have hjm : j < m + 1 := by
      by_contra hc
      push_neg at hc
      exact absurd (pow_le_pow_right₀ (by norm_num : (1 : ℚ) ≤ 2) hc) (not_le.mpr hj2)
    rcases lt_or_eq_of_le (Nat.lt_succ_iff.mp hjm) with hlt | heq
    · refine hmin j ?_
      rw [hm]
      have := pow_lt_pow_right₀ (by norm_num : (1 : ℚ) < 2) hlt
      push_cast
      exact this
    · have : ((2 : ℚ) ^ j) = (scale : ℚ) := by rw [hm, heq]; push_cast; ring
      rw [this]
      exact h.2
  | case2 scale ratio h =>
    intro m hm hmin
    rw [bufferScaleLoop, dif_neg h]
    have hpos : 0 < scale := by rw [hm]; positivity
    have hratio : ratio ≤ (scale : ℚ) := by
      by_contra hc
      exact h ⟨hpos, not_le.mp hc⟩
    refine ⟨m, hm, ?_, ?_⟩
    · calc ratio ≤ (scale : ℚ) := hratio
      _ = 2 ^ m := by rw [hm]; push_cast; ring
    · intro j hjr
      by_contra hc
      push_neg at hc
      have hlt : ((2 : ℚ) ^ j) < (scale : ℚ) := by
        rw [hm]
        have := pow_lt_pow_right₀ (by norm_num : (1 : ℚ) < 2) hc
        push_cast
        exact this
      exact absurd (lt_of_lt_of_le (hmin j hlt) hjr) (lt_irrefl _)

/-- C7. After `init(sample_rate)` with the sample rate in the admissible
range, `max_feedback_size`, `allpass_mask + 1` and the stereo memory size
are powers of two, and `buffer_scale` is the least power of two that is
at least `sample_rate / 44100`. -/
theorem init_power_of_two_invariants (sr : ℚ) (h1 : 44100 ≤ sr) (h2 : sr ≤ 192000) :
    (∃ k : ℕ, (Reverb.init sr).max_feedback_size = 2 ^ k) ∧
    (∃ k : ℕ, (Reverb.init sr).allpass_mask + 1 = 2 ^ k) ∧
    (∃ k : ℕ, (Reverb.init sr).stereo_memory.size = 2 ^ k) ∧
    (∃ k : ℕ, (Reverb.init sr).buffer_scale = 2 ^ k ∧
      getSampleRateRatio sr ≤ ((2 : ℚ) ^ k) ∧
      ∀ j : ℕ, getSampleRateRatio sr ≤ ((2 : ℚ) ^ j) → k ≤ j) := by
  obtain ⟨k, hk, hk2, hk3⟩ := bufferScaleLoop_spec 1 (getSampleRateRatio sr) 0 (by norm_num)
    (by
      intro j hj
      exfalso
      have : (1 : ℚ) ≤ 2 ^ j := one_le_pow₀ (by norm_num)
      rw [Nat.cast_one] at hj
      exact absurd (lt_of_le_of_lt this hj) (lt_irrefl _))
  have hbs : getBufferScale sr = (2 : ℤ) ^ k := by
    unfold getBufferScale
    rw [hk]
    push_cast
    ring
  have hbs' : (Reverb.init sr).buffer_scale = getBufferScale sr := rfl
  refine ⟨⟨k + 15, ?_⟩, ⟨k + 12, ?_⟩, ?_, ⟨k, ?_, hk2, hk3⟩⟩
  · show (getBufferScale sr * 2 ^ 15).toNat = 2 ^ (k + 15)
    rw [hbs]
    have : (2 : ℤ) ^ k * 2 ^ 15 = ((2 ^ (k + 15) : ℕ) : ℤ) := by push_cast; ring
    rw [this, Int.toNat_natCast]
  · show getBufferScale sr * 2 ^ 10 * 4 - 1 + 1 = 2 ^ (k + 12)
    rw [hbs]
    ring
  · obtain ⟨j, hj⟩ := Nat.isPowerOfTwo_nextPowerOfTwo 192000
    refine ⟨j, ?_⟩
    show ((Nat.nextPowerOfTwo 192000 : ℕ) : ℤ) = 2 ^ j
    rw [hj]
    push_cast
    ring
  · rw [hbs', hbs]

/-- C7 (witness). The invariant instantiated at `sample_rate = 44100`. -/
theorem init_power_of_two_invariants_witness :
    (44100 : ℚ) ≤ 44100 ∧ (44100 : ℚ) ≤ 192000 ∧
    ((∃ k : ℕ, (Reverb.init 44100).max_feedback_size = 2 ^ k) ∧
     (∃ k : ℕ, (Reverb.init 44100).allpass_mask + 1 = 2 ^ k) ∧
     (∃ k : ℕ, (Reverb.init 44100).stereo_memory.size = 2 ^ k) ∧
     (∃ k : ℕ, (Reverb.init 44100).buffer_scale = 2 ^ k ∧
       getSampleRateRatio 44100 ≤ ((2 : ℚ) ^ k) ∧
       ∀ j : ℕ, getSampleRateRatio 44100 ≤ ((2 : ℚ) ^ j) → k ≤ j)) :=
  ⟨le_refl _, by norm_num, init_power_of_two_invariants 44100 (le_refl _) (by norm_num)⟩

-- --------------------------------------------------------------------------
-- C1 / C10: panic behavior and frame effects of process

/-- The per-sample loop emits exactly one output frame per input frame. -/
theorem processLoop_length (C : BlockConsts) (st : LoopState) (xs : List (ℚ × ℚ)) :
    (processLoop C st xs).2.length = xs.length := by
  induction xs generalizing st with
  | nil => rfl
  | cons x rest ih =>
    obtain ⟨l, r⟩ := x
    simp only [processLoop, List.length_cons, ih]

/-- `process_block` emits one frame per zipped input frame on each
channel. -/
theorem processBlock_lengths (o : MathOracle) (rv : Reverb) (left right : List ℚ)
    (params : ReverbParams) :
    (Reverb.processBlock o rv left right params).2.1.length = (left.zip right).length ∧
    (Reverb.processBlock o rv left right params).2.2.length = (left.zip right).length := by
  constructor
  · show (List.map Prod.fst (processLoop (Reverb.prepareBlock o rv left params).2.1
      (Reverb.prepareBlock o rv left params).2.2 (left.zip right)).2).length = _
    rw [List.length_map, processLoop_length]
  · show (List.map Prod.snd (processLoop (Reverb.prepareBlock o rv left params).2.1
      (Reverb.prepareBlock o rv left params).2.2 (left.zip right)).2).length = _
    rw [List.length_map, processLoop_length]

/-- The re-blocking loop of `process` preserves the common buffer length
channel-wise. -/
theorem processChunks_lengths (o : MathOracle) (p : ReverbParams) (rv : Reverb)
    (left right : List ℚ) :
    right.length = left.length →
    (Reverb.processChunks o p rv left right).2.1.length = left.length ∧
    (Reverb.processChunks o p rv left right).2.2.length = left.length := by
  induction rv, left, right using Reverb.processChunks.induct o p with
  | case1 rv left right hemp =>
    intro _
    rw [Reverb.processChunks, dif_pos hemp]
    have hnil : left = [] := List.isEmpty_iff.mp hemp
    subst hnil
    exact ⟨rfl, rfl⟩
  | case2 rv left right hemp frames block ih =>
    intro h
    have hfr : min left.length 128 ≤ left.length := Nat.min_le_left _ _
    have hpos : 0 < left.length :=
      List.length_pos.mpr (by simpa [List.isEmpty_iff] using hemp)
    have hdrop : (right.drop (min left.length 128)).length =
        (left.drop (min left.length 128)).length := by
      simp only [List.length_drop, h]
    obtain ⟨ih1, ih2⟩ := ih hdrop
    have hb := processBlock_lengths o rv (left.take (min left.length 128))
      (right.take (min left.length 128)) p
    have hzip : ((left.take (min left.length 128)).zip
        (right.take (min left.length 128))).length = min left.length 128 := by
      simp only [List.length_zip, List.length_take]
      omega
    rw [Reverb.processChunks, dif_neg hemp]
    refine ⟨?_, ?_⟩
    · show ((Reverb.processBlock o rv (left.take (min left.length 128))
        (right.take (min left.length 128)) p).2.1 ++
        (Reverb.processChunks o p _ (left.drop (min left.length 128))
          (right.drop (min left.length 128))).2.1).length = left.length
      rw [List.length_append, hb.1, hzip, ih1]
      simp only [List.length_drop]
      omega
    · show ((Reverb.processBlock o rv (left.take (min left.length 128))
        (right.take (min left.length 128)) p).2.2 ++
        (Reverb.processChunks o p _ (left.drop (min left.length 128))
          (right.drop (min left.length 128))).2.2).length = left.length
      rw [List.length_append, hb.2, hzip, ih2]
      simp only [List.length_drop]
      omega

/-- C10. For every initialized engine and every pair of buffers with
`right` strictly longer than `left`, `process` returns normally; the
output right buffer is a processed prefix of length `left.len` followed
by the untouched tail `right[left.len..]`, and the processed parts depend
only on the first `left.len` elements of `right`. -/
theorem process_confines_to_left_length_prefix (o : MathOracle) (rv : Reverb)
    (l r : List ℚ) (p : ReverbParams) (hinit : rv.did_init = true)
    (hlen : l.length < r.length) :
    ∃ rv2 l2 r2, Reverb.process o rv l r p = some (rv2, l2, r2 ++ r.drop l.length) ∧
      l2.length = l.length ∧ r2.length = l.length ∧
      ∀ r' : List ℚ, r'.take l.length = r.take l.length →
        Reverb.process o rv l r' p = some (rv2, l2, r2 ++ r'.drop l.length) := by
  have htake : (r.take l.length).length = l.length := by
    simp only [List.length_take]
    omega
  obtain ⟨hl2, hr2⟩ := processChunks_lengths o p rv l (r.take l.length) htake
  refine ⟨(Reverb.processChunks o p rv l (r.take l.length)).1,
          (Reverb.processChunks o p rv l (r.take l.length)).2.1,
          (Reverb.processChunks o p rv l (r.take l.length)).2.2, ?_, hl2, hr2, ?_⟩
  · rw [Reverb.process, hinit, if_neg (by simp), if_neg (by omega)]
  · intro r' hr'
    have hr'len : l.length ≤ r'.length := by
      have := congrArg List.length hr'
      simp only [List.length_take] at this
      omega
    rw [Reverb.process, hinit, if_neg (by simp), if_neg (by omega), hr']

/-- C10 (witness). The frame-effect property of `process` instantiated at
the concrete engine `testReverb` with `left = [0.5]` and
`right = [0.25, 7]`. -/
theorem process_confines_witness :
    testReverb.did_init = true ∧
    ([0.5] : List ℚ).length < ([0.25, 7] : List ℚ).length ∧
    (∃ rv2 l2 r2,
      Reverb.process zeroOracle testReverb [0.5] [0.25, 7] ReverbParams.default =
        some (rv2, l2, r2 ++ ([0.25, 7] : List ℚ).drop ([0.5] : List ℚ).length) ∧
      l2.length = ([0.5] : List ℚ).length ∧ r2.length = ([0.5] : List ℚ).length ∧
      ∀ r' : List ℚ, r'.take ([0.5] : List ℚ).length = ([0.25, 7] : List ℚ).take
          ([0.5] : List ℚ).length →
        Reverb.process zeroOracle testReverb [0.5] r' ReverbParams.default =
          some (rv2, l2, r2 ++ r'.drop ([0.5] : List ℚ).length)) :=
  ⟨rfl, by decide,
   process_confines_to_left_length_prefix zeroOracle testReverb [0.5] [0.25, 7]
     ReverbParams.default rfl (by decide)⟩

/-- C1. Contrary to the claim (and to the `# Panics` documentation of
`Reverb::process`), unequal buffer lengths do not always abort: with an
initialized engine and `right` strictly longer than `left`
(lengths 1 and 2 here), `process` returns normally instead of
panicking. -/
theorem process_no_panic_on_longer_right :
    testReverb.did_init = true ∧
    ([0.5] : List ℚ).length ≠ ([0.25, 7] : List ℚ).length ∧
    (Reverb.process zeroOracle testReverb [0.5] [0.25, 7]
      ReverbParams.default).isSome = true :=
  ⟨rfl, by decide, by rfl⟩

end VitaliumVerb
